import Mathlib

/-!
Verification of the prismic-httpx client library against its natural-language
specification.  The Python sources under `prismic/` are shallowly embedded:
JSON values become the inductive `JVal`, Python dicts become insertion-ordered
association lists, stateful methods become explicit state passing, and code
paths that raise become `Except`/`Option` results.
-/

/-- A parsed JSON value, as produced by `response.json()` and consumed all over
the library.  Python `None` (JSON `null`) is `JVal.null`; numbers are modelled
as integers (no claim depends on float arithmetic). -/
inductive JVal where
  | null
  | bool (b : Bool)
  | num (n : Int)
  | str (s : String)
  | arr (xs : List JVal)
  | obj (fs : List (String × JVal))

/-- Python truthiness (`if value:`) for the modelled JSON values. -/
def JVal.truthy : JVal → Bool
  | .null => false
  | .bool b => b
  | .num n => n != 0
  | .str s => !s.isEmpty
  | .arr xs => !xs.isEmpty
  | .obj fs => !fs.isEmpty

/-- Lookup in an insertion-ordered association list (`dict.get(k)` giving
`none` for an absent key). -/
def alookup (l : List (String × JVal)) (k : String) : Option JVal :=
  match l with
  | [] => none
  | (k2, v) :: rest => if k2 == k then some v else alookup rest k

/-- `dict[k] = v` / `dict.update({k: v})`: replace the value at the first
occurrence of the key, keeping its position, else append (CPython dicts keep
the position of an existing key on update and append new keys). -/
def aset (l : List (String × JVal)) (k : String) (v : JVal) : List (String × JVal) :=
  match l with
  | [] => [(k, v)]
  | (k2, v2) :: rest => if k2 == k then (k2, v) :: rest else (k2, v2) :: aset rest k v

/-- `value.get(k)` on a JSON object, with Python's `None` (here `JVal.null`)
for an absent key.  The sources only call `.get` on dicts; a non-object
receiver yields `null` here. -/
def jget (v : JVal) (k : String) : JVal :=
  match v with
  | .obj fs => (alookup fs k).getD .null
  | _ => .null

/-- `value[k] = x` on a JSON object; the sources only assign into dicts, a
non-object receiver is returned unchanged. -/
def jset (v : JVal) (k : String) (x : JVal) : JVal :=
  match v with
  | .obj fs => .obj (aset fs k x)
  | other => other

/-- CPython `html.escape(s)` (with `quote=True`, the default) applied to a
single character: `&`, `<`, `>`, `"`, `'` are replaced by their entities. -/
def htmlEscapeChar (c : Char) : String :=
  if c = '&' then "&amp;"
  else if c = '<' then "&lt;"
  else if c = '>' then "&gt;"
  else if c = '"' then "&quot;"
  else if c = '\'' then "&#x27;"
  else String.singleton c

/-- CPython `html.escape` over a whole string (the sequential `str.replace`
calls of the stdlib implementation are equivalent to a character-wise map,
since `&` is replaced first). -/
def htmlEscape (s : String) : String :=
  String.join (s.toList.map htmlEscapeChar)

/-! ## Exceptions (`prismic/exceptions.py` — the taxonomy of §4.8)

The exception module only declares error classes; the raising logic lives in
`connection.py` and `api.py`.  `pyTypeError` and `pyAttributeError` stand for
unhandled Python runtime exceptions escaping the library code. -/

inductive PrismicError where
  | authorizationNeeded
  | invalidToken
  | http (status : Nat) (body : String)
  | invalidUrl (msg : String)
  | refMissing
  | pyTypeError (msg : String)
  | pyAttributeError (msg : String)
deriving DecidableEq

/-! ## Connection layer (`prismic/connection.py`) -/

/-- The part of an HTTP response that `get_json` inspects: the status code,
the raw body text, the parsed JSON body (used only on 200), and the
`Cache-Control` header. -/
structure HttpResponse where
  status : Nat
  body : String
  json : JVal
  cacheControl : Option String

/-- Python `str.startswith`, character-wise (mirrors CPython, which compares
code points, and keeps the definition computable by plain reduction). -/
def strStartsWith (s p : String) : Bool :=
  p.toList.isPrefixOf s.toList

/-- Digits-to-number helper for `get_max_age`. -/
def digitsToNat (ds : List Char) : Nat :=
  ds.foldl (fun acc c => acc * 10 + (c.toNat - 48)) 0

/-- `connection.get_max_age`: `re.match("max-age=(\\d+)", header)` anchors at
the start of the header value and captures the maximal leading digit run. -/
def get_max_age (cacheControl : Option String) : Option Nat :=
  match cacheControl with
  | none => none
  | some h =>
    if strStartsWith h "max-age=" then
      let ds := (h.toList.drop 8).takeWhile Char.isDigit
      if ds.isEmpty then none else some (digitsToNat ds)
    else none

/-- Successful outcome of `connection.get_json`: the JSON value returned to
the caller, plus the cache write it performs (TTL in seconds and stored
value), if any. -/
structure GetJsonOk where
  value : JVal
  cacheWrite : Option (Nat × JVal)

/-- `connection.get_json`, from the cache lookup onwards.  `cached` is the
result of `cache.get(full_url)`; `resp` is the response delivered by
`get_using_client` (the `InvalidURL` wrap applies before any response exists
and is outside this slice).  On 401 the source runs `len(access_token)`:
with `access_token=None` this is `len(None)`, a `TypeError`, not one of the
library's own error kinds. -/
def get_json (access_token : Option String) (ttl : Option Nat) (cached : Option JVal)
    (resp : HttpResponse) : Except PrismicError GetJsonOk :=
  match cached with
  | some v => .ok { value := v, cacheWrite := none }
  | none =>
    if resp.status == 200 then
      -- Python `expire = ttl or get_max_age(headers)`: a zero ttl is falsy.
      let ttlTruthy := match ttl with | some t => t != 0 | none => false
      let expire := if ttlTruthy then ttl else get_max_age resp.cacheControl
      match expire with
      | some e => .ok { value := resp.json, cacheWrite := some (e, resp.json) }
      | none => .ok { value := resp.json, cacheWrite := none }
    else if resp.status == 401 then
      match access_token with
      | none => .error (.pyTypeError "object of type NoneType has no len()")
      | some tok =>
        if tok.length == 0 then .error .authorizationNeeded
        else .error .invalidToken
    else
      .error (.http resp.status resp.body)

/-! ## Predicate DSL operands and `SearchForm._serialize` (`prismic/api.py`) -/

/-- An operand accepted by the predicate serializer: a string, a number, or
an iterable of operands (Python lists/tuples; `isinstance(field, str)` is
checked before `hasattr(field, "__iter__")`, so strings take the first
branch). -/
inductive Operand where
  | str (s : String)
  | num (n : Int)
  | list (xs : List Operand)

mutual

/-- `SearchForm._serialize`: field-path strings (`my.`/`document.` prefix or
exactly `document`) pass through unquoted, other strings are double-quoted,
iterables become a bracketed comma-space-joined list of recursively
serialized items, anything else uses its plain `str()` representation. -/
def _serialize : Operand → String
  | .str s =>
    if strStartsWith s "my." || strStartsWith s "document." || s == "document" then s
    else "\"" ++ s ++ "\""
  | .list xs => "[" ++ String.intercalate ", " (serializeEach xs) ++ "]"
  | .num n => toString n

def serializeEach : List Operand → List String
  | [] => []
  | x :: xs => _serialize x :: serializeEach xs

end

/-- A query predicate tuple `(operator_name, operand...)` as produced by the
`prismic.predicates` module. -/
def Predicate := String × List Operand

/-- Modelled from the spec: the repository's `prismic/predicates.py` module is
not under `src/` (only its callers and tests are).  §4.4 of the spec says the
DSL's `at(fragment, value)` is a pure function returning the tuple
`("at", fragment, value)`. -/
def predicates.at_ (fragment : String) (value : Operand) : Predicate :=
  ("at", [Operand.str fragment, value])

/-- One serialized predicate clause, `[:d = op(arg, ...)]`, as interpolated
inside the loop of `SearchForm.query`. -/
def predClause (p : Predicate) : String :=
  "[:d = " ++ p.1 ++ "(" ++ String.intercalate ", " (p.2.map _serialize) ++ ")]"

/-- The `q` string built by `SearchForm.query` from predicate tuples:
`q = "["`, then `q += "[:d = op(args)]"` per predicate, then `q += "]"`. -/
def queryString (argv : List Predicate) : String :=
  (argv.foldl (fun q p => q ++ predClause p) "[") ++ "]"

/-! ## SearchForm (`prismic/api.py`) -/

/-- The mutable state of a `SearchForm`: the form definition data copied in
`__init__` plus the accumulating `data` mapping.  The borrowed cache and
HTTP client handles carry no state the claims observe. -/
structure SearchForm where
  action : JVal
  method : JVal
  enctype : JVal
  fields : List (String × JVal)
  data : List (String × JVal)
  access_token : Option String

/-- The test `form_field and form_field.get("multiple")` of
`SearchForm.set`: the field's descriptor exists, is truthy, and has a truthy
`multiple` flag. -/
def fieldMultiple (fields : List (String × JVal)) (field : String) : Bool :=
  match alookup fields field with
  | some d => d.truthy && (jget d "multiple").truthy
  | none => false

/-- `SearchForm.set(field, value)`: for a multiple-valued field the value is
appended to a list (initialized when the current entry is absent or falsy);
otherwise the entry is overwritten.  Appending when the stored entry is a
truthy non-list raises `AttributeError` in Python (`.append` missing). -/
def SearchForm.set (f : SearchForm) (field : String) (value : JVal) :
    Except PrismicError SearchForm :=
  if fieldMultiple f.fields field then
    let data1 :=
      if ((alookup f.data field).getD .null).truthy then f.data
      else aset f.data field (.arr [])
    match alookup data1 field with
    | some (.arr xs) => .ok { f with data := aset data1 field (.arr (xs ++ [value])) }
    | _ => .error (.pyAttributeError "append called on a non-list form value")
  else
    .ok { f with data := aset f.data field value }

/-- `SearchForm.ref`: a `Ref` object argument is first unwrapped to its `ref`
token string; the token (or raw value) is then stored via `set('ref', ...)`. -/
def SearchForm.ref (f : SearchForm) (r : JVal) : Except PrismicError SearchForm :=
  f.set "ref" r

/-- `SearchForm.query(*argv)` for predicate-tuple arguments: with no
arguments the form is returned unchanged, otherwise the serialized query
string is stored via `set('q', q)` (the raw-string overload stores the given
string the same way). -/
def SearchForm.query (f : SearchForm) (argv : List Predicate) :
    Except PrismicError SearchForm :=
  match argv with
  | [] => .ok f
  | _ => f.set "q" (.str (queryString argv))

/-- `SearchForm.orderings`. -/
def SearchForm.orderings (f : SearchForm) (o : JVal) : Except PrismicError SearchForm :=
  f.set "orderings" o

/-- `SearchForm.page_size` (and its deprecated alias `pageSize`): stores the
page size under the `pageSize` field. -/
def SearchForm.page_size (f : SearchForm) (n : Int) : Except PrismicError SearchForm :=
  f.set "pageSize" (.num n)

/-- The HTTP request `SearchForm.submit` hands to `connection.get_json`: the
form's action URL, its accumulated data as query parameters, and the access
token. -/
structure Request where
  action : JVal
  data : List (String × JVal)
  access_token : Option String

/-- `SearchForm.submit_assert_preconditions`: raises `RefMissing` when
`self.data.get('ref') is None` (the key is absent, or holds JSON null). -/
def submit_assert_preconditions (f : SearchForm) : Except PrismicError Unit :=
  match (alookup f.data "ref").getD .null with
  | .null => .error .refMissing
  | _ => .ok ()

/-- `SearchForm.submit`, up to the network boundary: after the precondition
check it issues `get_json(action, data, access_token, cache)` — modelled as
the request it sends — and performs no mutation.  The form's post-state is
returned explicitly to make Python's in-place mutability visible: it is the
unchanged input state whether or not the precondition fails. -/
def SearchForm.submit (f : SearchForm) :
    (Except PrismicError Request) × SearchForm :=
  (match submit_assert_preconditions f with
   | .error e => .error e
   | .ok _ => .ok { action := f.action, data := f.data, access_token := f.access_token },
   f)

/-- `SearchForm.__copy__`: a fresh form over an empty definition whose
action, method, enctype, fields and data are deep copies of the original's
(deep copies of immutable values coincide with the values themselves here);
the access token, cache and client handles are shared. -/
def SearchForm.copyForm (f : SearchForm) : SearchForm :=
  { action := f.action, method := f.method, enctype := f.enctype,
    fields := f.fields, data := f.data, access_token := f.access_token }

/-- `SearchForm.count`: submits `copy(self).pageSize(1)` and reads the
response's `total_results_size` (a network-delivered number outside this
slice — the request submitted is returned instead).  The original form is
never touched; its unchanged state is passed through as the post-state. -/
def SearchForm.count (f : SearchForm) :
    Except PrismicError (Request × SearchForm) :=
  match (f.copyForm).page_size 1 with
  | .error e => .error e
  | .ok cp =>
    match cp.submit.1 with
    | .error e => .error e
    | .ok req => .ok (req, f)

/-- The `q`-forcing loop of `Api.__init__`: for every form, each field named
`q` gets `fields[field].update({"multiple": True})`. -/
def Api.forceQ (fields : List (String × JVal)) : List (String × JVal) :=
  fields.map (fun p => if p.1 == "q" then (p.1, jset p.2 "multiple" (.bool true)) else p)

/-! ## Legacy StructuredText rendering (`prismic/fragments.py`) -/

/-- The variant of a span tag as dispatched by `span_write_tag`
(`Span.Em`, `Span.Strong`, `Span.Hyperlink`, generic labeled span).  A
hyperlink carries the URL produced by `span.get_url(link_resolver)` — the
caller-supplied resolver is applied at the embedding boundary. -/
inductive SpanKind where
  | em
  | strong
  | hyperlink (url : String)
  | label (l : Option String)

/-- A `Span.SpanElement`: character start/end offsets plus the tag variant.
The source attribute `end` is a reserved word in Lean and is named `stop`. -/
structure TSpan where
  start : Nat
  stop : Nat
  kind : SpanKind

/-- `Span.SpanElement.length`, `self.end - self.start` (Python ints). -/
def TSpan.length (s : TSpan) : Int :=
  (s.stop : Int) - (s.start : Int)

/-- A custom HTML serializer for spans (`html_serializer` argument):
`none`-returning means "use the default rendering"; an absent serializer is
the constant-`none` function. -/
def SpanSerializer := TSpan → String → Option String

/-- `StructuredText.span_write_tag`: custom serializer first, then
`em`/`strong`/`a href`/generic `span` with an optional label class. -/
def span_write_tag (ser : SpanSerializer) (span : TSpan) (content : String) : String :=
  match ser span content with
  | some custom => custom
  | none =>
    match span.kind with
    | .em => "<em>" ++ content ++ "</em>"
    | .strong => "<strong>" ++ content ++ "</strong>"
    | .hyperlink url => "<a href=\"" ++ url ++ "\">" ++ content ++ "</a>"
    | .label l =>
      let cls := match l with
        | some lab => " class=\"" ++ lab ++ "\""
        | none => ""
      "<span" ++ cls ++ ">" ++ content ++ "</span>"

/-- The rendering state of `span_as_html`: the emitted top-level pieces
(`html_list`) and the stack of currently open tags with their accumulated
inner content.  The Python stack's top (its last element) is the HEAD of the
Lean list. -/
structure SpanState where
  html : List String
  stack : List (TSpan × String)

/-- Closing one tag (`stack.pop()` plus `span_write_tag`): the written tag
goes to `html_list` if it was top-level, else into the parent's content.
Popping an empty stack is Python `IndexError` (`none`). -/
def closeOne (ser : SpanSerializer) (st : SpanState) : Option SpanState :=
  match st.stack with
  | [] => none
  | (span, content) :: rest =>
    let inner := span_write_tag ser span content
    match rest with
    | [] => some { html := st.html ++ [inner], stack := [] }
    | (s2, c2) :: rest2 => some { html := st.html, stack := (s2, c2 ++ inner) :: rest2 }

/-- Close as many tags as there are spans ending at the current offset
(`for end_tag in tags_end.get(index)`). -/
def closeN (ser : SpanSerializer) : Nat → SpanState → Option SpanState
  | 0, st => some st
  | n + 1, st =>
    match closeOne ser st with
    | none => none
    | some st1 => closeN ser n st1

/-- Stable insertion into a list ascending by `TSpan.length` (an element is
placed before the first strictly longer or equally long later element, so
equal keys keep their original relative order, as Python's stable sort
does). -/
def insertByLen (x : TSpan) : List TSpan → List TSpan
  | [] => [x]
  | y :: ys => if x.length ≤ y.length then x :: y :: ys else y :: insertByLen x ys

/-- Stable sort ascending by span length, modelling Python's
`sorted(..., key=lambda s: s.length())`. -/
def sortByLen : List TSpan → List TSpan
  | [] => []
  | x :: xs => insertByLen x (sortByLen xs)

/-- The order in which spans starting at `idx` are opened:
`reversed(sorted(tags_start.get(index), key=length))`, i.e. descending span
length, ties in reverse encounter order. -/
def openOrder (spans : List TSpan) (idx : Nat) : List TSpan :=
  (sortByLen (spans.filter (fun s => s.start == idx))).reverse

/-- Appending one escaped character: to the top-level output if no span is
open, else to the innermost open span's content. -/
def appendChar (st : SpanState) (c : Char) : SpanState :=
  match st.stack with
  | [] => { st with html := st.html ++ [htmlEscapeChar c] }
  | (s, content) :: rest => { st with stack := (s, content ++ htmlEscapeChar c) :: rest }

/-- One iteration of the `for index, letter in enumerate(text)` loop: close
every span ending at `index`, then open every span starting at `index`
(longest first), then emit the escaped character. -/
def spanStep (ser : SpanSerializer) (spans : List TSpan) (idx : Nat) (c : Char)
    (st : SpanState) : Option SpanState :=
  let nEnds := (spans.filter (fun s => s.stop == idx)).length
  match closeN ser nEnds st with
  | none => none
  | some st1 =>
    let st2 : SpanState :=
      { st1 with stack := (openOrder spans idx).foldl (fun stk sp => (sp, "") :: stk) st1.stack }
    some (appendChar st2 c)

/-- The whole character loop of `span_as_html`. -/
def spanLoop (ser : SpanSerializer) (spans : List TSpan) :
    Nat → List Char → SpanState → Option SpanState
  | _, [], st => some st
  | idx, c :: cs, st =>
    match spanStep ser spans idx c st with
    | none => none
    | some st1 => spanLoop ser spans (idx + 1) cs st1

/-- The trailing `while len(stack) > 0` loop: repeatedly pop the top tag,
write it, and merge it into the parent's content (or into `html_list` at the
bottom).  Folding over the stack from the top computes the same nesting:
each step wraps the accumulated inner HTML into the next outer tag. -/
def closeAll (ser : SpanSerializer) (st : SpanState) : List String :=
  match st.stack with
  | [] => st.html
  | _ => st.html ++ [st.stack.foldl (fun acc p => span_write_tag ser p.1 (p.2 ++ acc)) ""]

/-- `StructuredText.span_as_html` (the offset-interval span rendering
algorithm); `none` is Python's `IndexError` on pathological span sets whose
ends do not match opens. -/
def span_as_html (ser : SpanSerializer) (text : String) (spans : List TSpan) :
    Option String :=
  match spanLoop ser spans 0 text.toList { html := [], stack := [] } with
  | none => none
  | some st => some (String.join (closeAll ser st))

/-- A text-bearing block of a legacy `StructuredText` (`Block.Heading`,
`Block.Paragraph`, `Block.ListItem`); image and embed blocks carry no spans
and are outside the claims modelled here. -/
inductive LBlock where
  | heading (level : Nat) (text : String) (spans : List TSpan) (label : Option String)
  | paragraph (text : String) (spans : List TSpan) (label : Option String)
  | listItem (ordered : Bool) (text : String) (spans : List TSpan) (label : Option String)

/-- The block's raw text. -/
def LBlock.text : LBlock → String
  | .heading _ t _ _ => t
  | .paragraph t _ _ => t
  | .listItem _ t _ _ => t

/-- The block's spans. -/
def LBlock.spans : LBlock → List TSpan
  | .heading _ _ s _ => s
  | .paragraph _ s _ => s
  | .listItem _ _ s _ => s

/-- The block's label. -/
def LBlock.label : LBlock → Option String
  | .heading _ _ _ l => l
  | .paragraph _ _ l => l
  | .listItem _ _ _ l => l

/-- A custom HTML serializer for blocks. -/
def BlockSerializer := LBlock → String → Option String

/-- `StructuredText.block_as_html` on text-bearing blocks: custom serializer
first, then `<hN>`, `<p>` or `<li>` with an optional label class. -/
def block_as_html (ser : BlockSerializer) (block : LBlock) (content : String) : String :=
  match ser block content with
  | some custom => custom
  | none =>
    let cls := match block.label with
      | some l => " class=\"" ++ l ++ "\""
      | none => ""
    match block with
    | .heading lvl _ _ _ =>
      "<h" ++ toString lvl ++ cls ++ ">" ++ content ++ "</h" ++ toString lvl ++ ">"
    | .paragraph _ _ _ => "<p" ++ cls ++ ">" ++ content ++ "</p>"
    | .listItem _ _ _ _ => "<li" ++ cls ++ ">" ++ content ++ "</li>"

/-- A `StructuredText.Group`: an optional `ul`/`ol` wrapper tag and its
blocks. -/
structure STGroup where
  tag : Option String
  blocks : List LBlock

/-- Whether the block is an unordered list item. -/
def LBlock.isUl : LBlock → Bool
  | .listItem false _ _ _ => true
  | _ => false

/-- Whether the block is an ordered list item. -/
def LBlock.isOl : LBlock → Bool
  | .listItem true _ _ _ => true
  | _ => false

/-- One step of the grouping pass of `StructuredText.as_html`: consecutive
list items of the same orderedness join the open `ul`/`ol` group, anything
else starts a new group. -/
def addBlock (groups : List STGroup) (b : LBlock) : List STGroup :=
  match groups.getLast? with
  | some lastOne =>
    if lastOne.tag == some "ul" && b.isUl then
      groups.dropLast ++ [{ lastOne with blocks := lastOne.blocks ++ [b] }]
    else if lastOne.tag == some "ol" && b.isOl then
      groups.dropLast ++ [{ lastOne with blocks := lastOne.blocks ++ [b] }]
    else if b.isUl then groups ++ [{ tag := some "ul", blocks := [b] }]
    else if b.isOl then groups ++ [{ tag := some "ol", blocks := [b] }]
    else groups ++ [{ tag := none, blocks := [b] }]
  | none =>
    if b.isUl then [{ tag := some "ul", blocks := [b] }]
    else if b.isOl then [{ tag := some "ol", blocks := [b] }]
    else [{ tag := none, blocks := [b] }]

/-- Rendering of one group: the optional `<ul>`/`<ol>` wrapper around each
block's `block_as_html` of its `span_as_html` content. -/
def renderGroup (serS : SpanSerializer) (serB : BlockSerializer) (g : STGroup) :
    Option String :=
  match g.blocks.mapM (fun b =>
      (span_as_html serS b.text b.spans).map (fun content => block_as_html serB b content)) with
  | none => none
  | some inner =>
    match g.tag with
    | some t => some ("<" ++ t ++ ">" ++ String.join inner ++ "</" ++ t ++ ">")
    | none => some (String.join inner)

/-- `StructuredText.as_html` over text-bearing blocks: the grouping pass
followed by per-group rendering. -/
def structured_text_as_html (serS : SpanSerializer) (serB : BlockSerializer)
    (blocks : List LBlock) : Option String :=
  match (blocks.foldl addBlock []).mapM (renderGroup serS serB) with
  | none => none
  | some parts => some (String.join parts)

/-- The absent span serializer (`html_serializer=None`). -/
def noSpanSer : SpanSerializer := fun _ _ => none

/-- The absent block serializer (`html_serializer=None`). -/
def noBlockSer : BlockSerializer := fun _ _ => none

/-! ## URL percent-decoding (`urllib.parse.unquote`, as called by
`Document.__unquote`) -/

/-- Whether a byte is a UTF-8 continuation byte. -/
def isCont (b : Nat) : Bool :=
  0x80 ≤ b && b ≤ 0xBF

/-- Valid second byte of a three-byte UTF-8 sequence starting with `b1`
(CPython rejects overlong encodings and surrogates here). -/
def cont3ok (b1 b2 : Nat) : Bool :=
  if b1 == 0xE0 then 0xA0 ≤ b2 && b2 ≤ 0xBF
  else if b1 == 0xED then 0x80 ≤ b2 && b2 ≤ 0x9F
  else isCont b2

/-- Valid second byte of a four-byte UTF-8 sequence starting with `b1`. -/
def cont4ok (b1 b2 : Nat) : Bool :=
  if b1 == 0xF0 then 0x90 ≤ b2 && b2 ≤ 0xBF
  else if b1 == 0xF4 then 0x80 ≤ b2 && b2 ≤ 0x8F
  else isCont b2

/-- The U+FFFD replacement character emitted by `errors="replace"`. -/
def replChar : String :=
  String.singleton (Char.ofNat 0xFFFD)

/-- UTF-8 decoding with `errors="replace"` (the decoder `unquote` applies to
each percent-byte run): a malformed sequence yields one replacement
character for its maximal valid prefix, and decoding resumes at the next
byte.  `fuel` only bounds the recursion; every step consumes at least one
byte, so starting it at the input length never exhausts it. -/
def utf8DecodeAux : Nat → List Nat → String
  | 0, _ => ""
  | _ + 1, [] => ""
  | fuel + 1, b :: rest =>
    if b < 0x80 then String.singleton (Char.ofNat b) ++ utf8DecodeAux fuel rest
    else if b < 0xC2 then replChar ++ utf8DecodeAux fuel rest
    else if b ≤ 0xDF then
      match rest with
      | [] => replChar
      | b2 :: rest2 =>
        if isCont b2 then
          String.singleton (Char.ofNat ((b - 0xC0) * 64 + (b2 - 0x80))) ++ utf8DecodeAux fuel rest2
        else replChar ++ utf8DecodeAux fuel rest
    else if b ≤ 0xEF then
      match rest with
      | [] => replChar
      | b2 :: rest2 =>
        if cont3ok b b2 then
          match rest2 with
          | [] => replChar
          | b3 :: rest3 =>
            if isCont b3 then
              String.singleton (Char.ofNat ((b - 0xE0) * 4096 + (b2 - 0x80) * 64 + (b3 - 0x80)))
                ++ utf8DecodeAux fuel rest3
            else replChar ++ utf8DecodeAux fuel rest2
        else replChar ++ utf8DecodeAux fuel rest
    else if b ≤ 0xF4 then
      match rest with
      | [] => replChar
      | b2 :: rest2 =>
        if cont4ok b b2 then
          match rest2 with
          | [] => replChar
          | b3 :: rest3 =>
            if isCont b3 then
              match rest3 with
              | [] => replChar
              | b4 :: rest4 =>
                if isCont b4 then
                  String.singleton (Char.ofNat
                      ((b - 0xF0) * 262144 + (b2 - 0x80) * 4096 + (b3 - 0x80) * 64 + (b4 - 0x80)))
                    ++ utf8DecodeAux fuel rest4
                else replChar ++ utf8DecodeAux fuel rest3
            else replChar ++ utf8DecodeAux fuel rest2
        else replChar ++ utf8DecodeAux fuel rest
    else replChar ++ utf8DecodeAux fuel rest

/-- UTF-8 `replace`-mode decoding of a byte run. -/
def utf8DecodeReplace (bs : List Nat) : String :=
  utf8DecodeAux bs.length bs

/-- Value of one hex digit, as accepted inside a `%XX` escape. -/
def hexVal (c : Char) : Option Nat :=
  if '0' ≤ c && c ≤ '9' then some (c.toNat - 48)
  else if 'a' ≤ c && c ≤ 'f' then some (c.toNat - 87)
  else if 'A' ≤ c && c ≤ 'F' then some (c.toNat - 55)
  else none

/-- Collect a maximal run of `%XX` escapes into bytes, returning the bytes
and the remaining characters. -/
def collectBytes : List Char → List Nat × List Char
  | '%' :: a :: b :: rest =>
    match hexVal a, hexVal b with
    | some ha, some hb =>
      let (bs, r) := collectBytes rest
      ((ha * 16 + hb) :: bs, r)
    | _, _ => ([], '%' :: a :: b :: rest)
  | l => ([], l)

/-- The scanning loop of `urllib.parse.unquote`: literal characters pass
through, each maximal `%XX` run is decoded as UTF-8 with replacement, a `%`
not followed by two hex digits stays literal.  `fuel` only bounds the
recursion; it is never exhausted when it starts at the input length. -/
def unquoteAux : Nat → List Char → String
  | 0, _ => ""
  | _ + 1, [] => ""
  | fuel + 1, c :: rest =>
    if c = '%' then
      match collectBytes (c :: rest) with
      | ([], _) => "%" ++ unquoteAux fuel rest
      | (bs, r) => utf8DecodeReplace bs ++ unquoteAux fuel r
    else String.singleton c ++ unquoteAux fuel rest

/-- `urllib.parse.unquote(s)` with the default UTF-8/`replace` handling, as
`Document.__unquote` calls it on each slug. -/
def unquote (s : String) : String :=
  unquoteAux s.toList.length s.toList

/-! ## Legacy `Document` (`prismic/api.py`) -/

/-- The slug-parsing tail of `Document.__init__`: `self.slugs = ["-"]`, then
if `data.get("slugs")` is not `None`, each slug is URL-decoded.  `none` is
the Python `TypeError` of iterating or decoding a non-list/non-string
shape. -/
def parseSlugs (data : JVal) : Option (List String) :=
  match jget data "slugs" with
  | .null => some ["-"]
  | .arr xs =>
    xs.mapM (fun x => match x with
      | .str s => some (unquote s)
      | _ => none)
  | _ => none

/-- `Document.slug`: the most recent slug, `self.slugs[0] if self.slugs else
"-"`. -/
def Document.slug (slugs : List String) : String :=
  match slugs with
  | [] => "-"
  | s :: _ => s

/-- A legacy `Document` as far as the modelled claims observe it: its raw
JSON `_data` and the parsed slug list. -/
structure LDoc where
  _data : JVal
  slugs : List String

/-- The data a `Fragment.DocumentLink` built by `Document.as_link` carries
(its embedded fragment map is empty for the claims modelled here — the
wrapped `{'document': data}` has no `data` key of its own at top level).
`is_broken` is read with `value.get("isBroken")` on the wrapper dict, which
has only the `document` key, hence `null`. -/
structure DocumentLinkF where
  id : JVal
  uid : JVal
  type : JVal
  tags : JVal
  slug : JVal
  is_broken : JVal

/-- `Document.as_link`: copy `_data`, set its `slug` to the document's most
recent slug, and build `Fragment.DocumentLink({'document': data})`. -/
def LDoc.as_link (d : LDoc) : DocumentLinkF :=
  let data := jset d._data "slug" (.str (Document.slug d.slugs))
  { id := jget data "id", uid := jget data "uid", type := jget data "type",
    tags := jget data "tags", slug := jget data "slug",
    is_broken := jget (JVal.obj [("document", data)]) "isBroken" }

/-! ## `Api.preview_session` (`prismic/api.py`) -/

/-- `Api.preview_session(token, link_resolver, default_url)`, with its two
I/O boundaries passed as oracles: `previewResp` is the JSON fetched at the
preview token by `get_json`, and `queryResult` is what
`get_by_id(main_document_id, ref=token)` returns (`none` when the query
yields no document).  The guard after the query is the source's literal
`if doc is None == 0`, which Python chains into
`(doc is None) and (None == 0)`; since `None == 0` is `False`, the guard is
always `False` and a missing document falls through to `doc.as_link()`, an
`AttributeError` on `None`. -/
def preview_session (previewResp : JVal) (queryResult : Option LDoc)
    (link_resolver : DocumentLinkF → String) (default_url : String) :
    Except PrismicError String :=
  let main_document_id := jget previewResp "mainDocument"
  match main_document_id with
  | .null => .ok default_url
  | _ =>
    if queryResult.isNone && false then .ok default_url
    else
      match queryResult with
      | some doc => .ok (link_resolver doc.as_link)
      | none => .error (.pyAttributeError "NoneType object has no attribute as_link")

/-! ## Flat field rendering: legacy (`prismic/fragments.py`) vs typed
(`prismic/structures/fragments.py`) -/

/-- `Fragment.Text.as_html`: the value is HTML-escaped inside
`<span class="text">`. -/
def Fragment.Text.as_html (value : String) : String :=
  "<span class=\"text\">" ++ htmlEscape value ++ "</span>"

/-- `Fragment.Color.as_html`: the value is interpolated verbatim inside
`<span class="color">`. -/
def Fragment.Color.as_html (value : String) : String :=
  "<span class=\"color\">" ++ value ++ "</span>"

/-- `ResultData.fragment_to_html` restricted to string-valued fields (the
`text`, `select`, `color`, `range` record fields, whose values interpolate
via `str()`): a falsy (empty) fragment returns `""`, `select` is renamed to
`text`, and the span carries the raw, unescaped value. -/
def ResultData.fragment_to_html_str (key : String) (fragment : String) : String :=
  if fragment == "" then ""
  else
    let key := if key == "select" then "text" else key
    if key == "color" || key == "text" || key == "number" || key == "range" then
      "<span class=\"" ++ key ++ "\">" ++ fragment ++ "</span>"
    else ""

/-- `Fragment.Number.as_html`: `"<span class=\"number\">%g</span>" % value`.
Modelled on integer-valued numbers with magnitude at most 999999, the range
where CPython's `%g` (six significant digits, no exponent switch) prints
exactly the plain integer digits. -/
def Fragment.Number.as_html (n : Int) : String :=
  "<span class=\"number\">" ++ toString n ++ "</span>"

/-- `str()` of an integer-valued Python float below the 1e16 repr-exponent
threshold: the digits followed by `.0`.  This is the interpolation the typed
model's f-string performs after pydantic coerces the JSON number to
`float`. -/
def pyFloatStr_int (n : Int) : String :=
  toString n ++ ".0"

/-- The `number` branch of `ResultData.fragment_to_html` on an
integer-valued float: `if not fragment: return ""` (the float `0.0` is
falsy), else `<span class="number">` around the raw `str()` of the float. -/
def ResultData.fragment_to_html_number (n : Int) : String :=
  if n == 0 then ""
  else "<span class=\"number\">" ++ pyFloatStr_int n ++ "</span>"

/-- The data an image view carries as far as both renderers read it: url,
pixel dimensions, optional alt text, and the resolved URL of the optional
link target (`link_to.get_url(link_resolver)` is applied at the embedding
boundary, as for hyperlink spans). -/
structure ImageViewF where
  url : String
  width : Int
  height : Int
  alt : Option String
  linkToUrl : Option String

/-- `Fragment.Image.View.as_html`: the `<img>` tag (alt defaulting to the
empty string), wrapped in an anchor when a link target is set. -/
def Fragment.Image.View.as_html (v : ImageViewF) : String :=
  let img_tag := "<img src=\"" ++ v.url ++ "\" alt=\"" ++ v.alt.getD ""
    ++ "\" width=\"" ++ toString v.width ++ "\" height=\"" ++ toString v.height ++ "\" />"
  match v.linkToUrl with
  | none => img_tag
  | some u => "<a href=\"" ++ u ++ "\">" ++ img_tag ++ "</a>"

/-- The typed model's `Image.as_html` (`prismic/structures/fragments.py`):
`if not self.url: return ""` first, then the same `<img>` tag and optional
anchor wrap as the legacy view. -/
def Structures.Image.as_html (v : ImageViewF) : String :=
  if v.url == "" then ""
  else
    let img_tag := "<img src=\"" ++ v.url ++ "\" alt=\"" ++ v.alt.getD ""
      ++ "\" width=\"" ++ toString v.width ++ "\" height=\"" ++ toString v.height ++ "\" />"
    match v.linkToUrl with
    | none => img_tag
    | some u => "<a href=\"" ++ u ++ "\">" ++ img_tag ++ "</a>"

/-- Zero-padding of a microdegree fraction to six digits. -/
def pad6 (n : Nat) : String :=
  let s := toString n
  String.mk (List.replicate (6 - s.length) '0') ++ s

/-- CPython `%f` / `:f` formatting (six decimal places) of a coordinate,
modelled on values exact in microdegrees: the argument is the coordinate
scaled by 10^6.  Both renderers use this identical format spec. -/
def pyFormatF (micros : Int) : String :=
  (if micros < 0 then "-" else "")
    ++ toString (micros.natAbs / 1000000) ++ "." ++ pad6 (micros.natAbs % 1000000)

/-- `Fragment.GeoPoint.as_html`: latitude and longitude as fixed-point
floats inside the geopoint div.  Coordinates are microdegree-scaled
integers, see `pyFormatF`. -/
def Fragment.GeoPoint.as_html (lat lon : Int) : String :=
  "<div class=\"geopoint\"><span class=\"latitude\">" ++ pyFormatF lat
    ++ "</span><span class=\"longitude\">" ++ pyFormatF lon ++ "</span></div>"

/-- The typed model's `GeoPoint.as_html`:
`if not self.latitude or not self.longitude: return ""` (the float `0.0`
and `None` are falsy), else the same div as the legacy model. -/
def Structures.GeoPoint.as_html (lat lon : Int) : String :=
  if lat == 0 || lon == 0 then ""
  else
    "<div class=\"geopoint\"><span class=\"latitude\">" ++ pyFormatF lat
      ++ "</span><span class=\"longitude\">" ++ pyFormatF lon ++ "</span></div>"

/-! ## Fixtures for concrete evaluations -/

/-- Plain concatenation of a list of strings (the shape of the `q` string:
clauses concatenated with no separator). -/
def concatAll : List String → String
  | [] => ""
  | s :: rest => s ++ concatAll rest

/-- A 401 response as delivered to `get_json`. -/
def resp401 : HttpResponse :=
  { status := 401, body := "Invalid access token", json := .null, cacheControl := none }

/-- The field descriptors of the `everything` form after `Api.__init__`
forced the `q` field to `multiple`. -/
def sampleFields : List (String × JVal) :=
  [("q", .obj [("multiple", .bool true)]),
   ("ref", .obj [("multiple", .bool false)]),
   ("pageSize", .obj [("multiple", .bool false)])]

/-- A fresh `everything` search form. -/
def sampleForm : SearchForm :=
  { action := .str "https://repo.example/api/documents/search",
    method := .str "GET",
    enctype := .str "application/x-www-form-urlencoded",
    fields := sampleFields, data := [], access_token := none }

/-- The same form after `.ref("master-tok")`. -/
def sampleFormWithRef : SearchForm :=
  { sampleForm with data := [("ref", .str "master-tok")] }

/-! ## Helper lemmas about the dict model -/

theorem alookup_aset_self (l : List (String × JVal)) (k : String) (v : JVal) :
    alookup (aset l k v) k = some v := by
  induction l with
  | nil => simp [aset, alookup]
  | cons hd tl ih =>
    obtain ⟨k2, v2⟩ := hd
    by_cases h : k2 = k
    · subst h; simp [aset, alookup]
    · simp [aset, alookup, beq_iff_eq, h, ih]

theorem alookup_aset_ne (l : List (String × JVal)) (k k2 : String) (v : JVal)
    (h : k2 ≠ k) : alookup (aset l k v) k2 = alookup l k2 := by
  have hne : ¬ k = k2 := fun hh => h hh.symm
  induction l with
  | nil => simp [aset, alookup, beq_iff_eq, hne]
  | cons hd tl ih =>
    obtain ⟨ka, va⟩ := hd
    by_cases hk : ka = k
    · subst hk
      have h2 : ¬ ka = k2 := fun hh => h hh.symm
      simp [aset, alookup, beq_iff_eq, h2]
    · simp [aset, alookup, beq_iff_eq, hk, ih]

theorem aset_ne_nil (l : List (String × JVal)) (k : String) (v : JVal) :
    aset l k v ≠ [] := by
  cases l with
  | nil => simp [aset]
  | cons hd tl =>
    obtain ⟨k2, v2⟩ := hd
    by_cases h : k2 = k <;> simp [aset, beq_iff_eq, h]

theorem alookup_forceQ (fields : List (String × JVal)) :
    alookup (Api.forceQ fields) "q"
      = (alookup fields "q").map (fun d => jset d "multiple" (.bool true)) := by
  induction fields with
  | nil => simp [Api.forceQ, alookup]
  | cons hd tl ih =>
    obtain ⟨k2, v2⟩ := hd
    by_cases h : k2 = "q"
    · subst h; simp [Api.forceQ, alookup]
    · have hb : (k2 == "q") = false := by simp [beq_iff_eq, h]
      simp only [Api.forceQ, List.map_cons]
      rw [if_neg (by simp [hb])]
      simp only [alookup, hb, Bool.false_eq_true, if_false]
      simpa [Api.forceQ] using ih

/-! ## Helper lemmas about query serialization -/

theorem serializeEach_eq_map (xs : List Operand) :
    serializeEach xs = xs.map _serialize := by
  induction xs with
  | nil => simp [serializeEach]
  | cons x xs ih => simp [serializeEach, ih]

theorem queryString_foldl (preds : List Predicate) (acc : String) :
    preds.foldl (fun q p => q ++ predClause p) acc = acc ++ concatAll (preds.map predClause) := by
  induction preds generalizing acc with
  | nil =>
    show acc = acc ++ ""
    apply String.ext
    simp [String.data_append]
  | cons p ps ih =>
    show ps.foldl (fun q p => q ++ predClause p) (acc ++ predClause p)
        = acc ++ concatAll ((p :: ps).map predClause)
    rw [ih]
    show acc ++ predClause p ++ concatAll (ps.map predClause)
        = acc ++ (predClause p ++ concatAll (ps.map predClause))
    exact String.append_assoc acc (predClause p) (concatAll (ps.map predClause))

/-! ## Helper lemmas about span ordering -/

theorem mem_insertByLen {z x : TSpan} {l : List TSpan}
    (h : z ∈ insertByLen x l) : z = x ∨ z ∈ l := by
  induction l with
  | nil => simpa [insertByLen] using h
  | cons y ys ih =>
    by_cases hxy : x.length ≤ y.length
    · simpa [insertByLen, hxy] using h
    · simp only [insertByLen, if_neg hxy, List.mem_cons] at h
      rcases h with h | h
      · exact Or.inr (by simp [h])
      · rcases ih h with h2 | h2
        · exact Or.inl h2
        · exact Or.inr (List.mem_cons_of_mem _ h2)

theorem pairwise_insertByLen {x : TSpan} {l : List TSpan}
    (h : List.Pairwise (fun a b => a.length ≤ b.length) l) :
    List.Pairwise (fun a b => a.length ≤ b.length) (insertByLen x l) := by
  induction l with
  | nil => simp [insertByLen]
  | cons y ys ih =>
    rcases List.pairwise_cons.mp h with ⟨hy, hys⟩
    by_cases hxy : x.length ≤ y.length
    · simp only [insertByLen, if_pos hxy]
      refine List.pairwise_cons.mpr ⟨?_, h⟩
      intro z hz
      rcases List.mem_cons.mp hz with h2 | h2
      · simpa [h2] using hxy
      · exact le_trans hxy (hy z h2)
    · simp only [insertByLen, if_neg hxy]
      refine List.pairwise_cons.mpr ⟨?_, ih hys⟩
      intro z hz
      rcases mem_insertByLen hz with h2 | h2
      · subst h2; exact le_of_not_le hxy
      · exact hy z h2

theorem pairwise_sortByLen (l : List TSpan) :
    List.Pairwise (fun a b => a.length ≤ b.length) (sortByLen l) := by
  induction l with
  | nil => simp [sortByLen]
  | cons x xs ih => exact pairwise_insertByLen ih

/-! ## Claim theorems -/

/-- C1: for a `get_json` call that receives an HTTP 401 response, an
empty-string access token fails with `AuthorizationNeeded` and a non-empty
token fails with `InvalidToken`; but an absent (`None`) token does not fail
with `AuthorizationNeeded` as the claim states — the source evaluates
`len(None)`, which raises a Python `TypeError` instead. -/
theorem get_json_401_token_classification (ttl : Option Nat) (resp : HttpResponse)
    (h401 : resp.status = 401) :
    get_json (some "") ttl none resp = .error .authorizationNeeded
    ∧ (∀ tok : String, tok.length ≠ 0 →
        get_json (some tok) ttl none resp = .error .invalidToken)
    ∧ get_json none ttl none resp
        = .error (.pyTypeError "object of type NoneType has no len()") := by
  refine ⟨?_, ?_, ?_⟩
  · simp [get_json, h401]
  · intro tok htok
    simp [get_json, h401, htok]
  · simp [get_json, h401]

/-- Witness for C1: the three 401 outcomes at a concrete response. -/
theorem get_json_401_token_classification_witness :
    get_json (some "") none none resp401 = .error .authorizationNeeded
    ∧ get_json (some "badtoken") none none resp401 = .error .invalidToken
    ∧ get_json none none none resp401
        = .error (.pyTypeError "object of type NoneType has no len()") := by
  have h := get_json_401_token_classification none resp401 rfl
  exact ⟨h.1, h.2.1 "badtoken" (by decide), h.2.2⟩

/-- C2: `preview_session` returns `default_url` when the preview JSON names
no main document, and resolves the found document through the link resolver;
but when the named document cannot be found, the source's guard
`if doc is None == 0` is always false (Python chains it into
`(doc is None) and (None == 0)`), so instead of returning `default_url` the
code calls `None.as_link()` and raises `AttributeError`. -/
theorem preview_session_behavior :
    (∀ (qr : Option LDoc) (resolver : DocumentLinkF → String) (default_url : String),
        preview_session (.obj [("other", .str "x")]) qr resolver default_url
          = .ok default_url)
    ∧ (∀ (doc : LDoc) (resolver : DocumentLinkF → String) (default_url : String),
        preview_session (.obj [("mainDocument", .str "X")]) (some doc) resolver default_url
          = .ok (resolver doc.as_link))
    ∧ preview_session (.obj [("mainDocument", .str "X")]) none (fun _ => "resolved")
        "https://example.org/home"
      = .error (.pyAttributeError "NoneType object has no attribute as_link") := by
  refine ⟨?_, ?_, ?_⟩
  · intro qr resolver default_url
    rfl
  · intro doc resolver default_url
    rfl
  · rfl

/-- C3: `SearchForm.query` on the single predicate `at('document.id', 'X')`
stores the q string `[[:d = at(document.id, "X")]]`, and for any sequence of
two or more predicates the q string is the separator-free concatenation of
the bracketed clauses inside one outer bracket pair. -/
theorem query_serialization_single_and_multi (f f1 : SearchForm)
    (hm : fieldMultiple f.fields "q" = true)
    (h0 : alookup f.data "q" = none)
    (hq : f.query [predicates.at_ "document.id" (.str "X")] = .ok f1) :
    alookup f1.data "q" = some (.arr [.str "[[:d = at(document.id, \"X\")]]"])
    ∧ (∀ preds : List Predicate, 2 ≤ preds.length →
        queryString preds = "[" ++ concatAll (preds.map predClause) ++ "]") := by
  constructor
  · have hqs : queryString [predicates.at_ "document.id" (.str "X")]
        = "[[:d = at(document.id, \"X\")]]" := by rfl
    simp only [SearchForm.query, SearchForm.set, hm, if_pos, hqs] at hq
    rw [h0] at hq
    simp only [Option.getD_none, JVal.truthy, Bool.false_eq_true, if_false] at hq
    rw [alookup_aset_self] at hq
    simp only [List.nil_append] at hq
    cases hq
    exact alookup_aset_self _ _ _
  · intro preds _
    unfold queryString
    rw [queryString_foldl]

/-- Witness for C3: the accumulated q entry on a concrete form, and the
two-predicate concatenation shape. -/
theorem query_serialization_single_and_multi_witness :
    (∃ f1, sampleForm.query [predicates.at_ "document.id" (.str "X")] = .ok f1
        ∧ alookup f1.data "q" = some (.arr [.str "[[:d = at(document.id, \"X\")]]"]))
    ∧ queryString [("at", [Operand.str "document.id", Operand.str "X"]),
        ("any", [Operand.str "document.type", Operand.list [Operand.str "a", Operand.str "b"]])]
      = "[[:d = at(document.id, \"X\")][:d = any(document.type, [\"a\", \"b\"])]]" := by
  constructor
  · refine ⟨_, rfl, ?_⟩
    exact (query_serialization_single_and_multi sampleForm _ rfl rfl rfl).1
  · have h := (query_serialization_single_and_multi sampleForm
      { sampleForm with data := [("q", .arr [.str "[[:d = at(document.id, \"X\")]]"])] }
      rfl rfl rfl).2
      [("at", [Operand.str "document.id", Operand.str "X"]),
       ("any", [Operand.str "document.type", Operand.list [Operand.str "a", Operand.str "b"]])]
      (by decide)
    rw [h]
    rfl

/-- C4: `_serialize` emits field-path strings (`my.`/`document.` prefix or
exactly `document`) verbatim, quotes every other string, renders an iterable
as a bracketed comma-space-joined list of recursively serialized items
(e.g. `["a", "b"]`), and renders any other operand with its plain textual
representation. -/
theorem serialize_operand_forms :
    (∀ s : String,
        (strStartsWith s "my." || strStartsWith s "document." || s == "document") = true →
        _serialize (.str s) = s)
    ∧ (∀ s : String,
        (strStartsWith s "my." || strStartsWith s "document." || s == "document") = false →
        _serialize (.str s) = "\"" ++ s ++ "\"")
    ∧ (∀ xs : List Operand,
        _serialize (.list xs) = "[" ++ String.intercalate ", " (xs.map _serialize) ++ "]")
    ∧ _serialize (.list [.str "a", .str "b"]) = "[\"a\", \"b\"]"
    ∧ (∀ n : Int, _serialize (.num n) = toString n) := by
  refine ⟨?_, ?_, ?_, ?_, ?_⟩
  · intro s hs
    simp [_serialize, hs]
  · intro s hs
    simp [_serialize, hs]
  · intro xs
    rw [_serialize, serializeEach_eq_map]
  · rfl
  · intro n
    rfl

/-- Witness for C4: a field path passes unquoted and a plain string is
quoted. -/
theorem serialize_operand_forms_witness :
    _serialize (.str "document.id") = "document.id"
    ∧ _serialize (.str "X") = "\"X\"" :=
  ⟨serialize_operand_forms.1 "document.id" (by decide),
   serialize_operand_forms.2.1 "X" (by decide)⟩

theorem aset_aset_collapse (l : List (String × JVal)) (k : String) (v1 v2 : JVal) :
    aset (aset l k v1) k v2 = aset l k v2 := by
  induction l with
  | nil => simp [aset]
  | cons hd tl ih =>
    obtain ⟨k2, v0⟩ := hd
    by_cases h : k2 = k
    · subst h; simp [aset]
    · simp [aset, beq_iff_eq, h, ih]

/-- C5: `SearchForm.set` appends to a per-field list when the bound Form
Definition marks the field `multiple` (so two stores accumulate two entries,
and the `q` descriptor is forced to `multiple` by `Api.__init__`), and
overwrites the stored value otherwise (so the second of two `ref` stores
wins). -/
theorem set_multiple_accumulates_single_overwrites
    (f : SearchForm) (field : String) (v1 v2 : JVal) :
    (fieldMultiple f.fields field = true → alookup f.data field = none →
      ∃ f1 f2, f.set field v1 = .ok f1 ∧ f1.set field v2 = .ok f2
        ∧ alookup f2.data field = some (.arr [v1, v2]))
    ∧ (fieldMultiple f.fields field = false →
      ∃ g1 g2, f.set field v1 = .ok g1 ∧ g1.set field v2 = .ok g2
        ∧ alookup g2.data field = some v2)
    ∧ (∀ fields dfs, alookup fields "q" = some (.obj dfs) →
        alookup (Api.forceQ fields) "q" = some (.obj (aset dfs "multiple" (.bool true)))
        ∧ fieldMultiple (Api.forceQ fields) "q" = true) := by
  refine ⟨?_, ?_, ?_⟩
  · intro hm h0
    refine ⟨{ f with data := aset f.data field (.arr [v1]) },
      { f with data := aset f.data field (.arr [v1, v2]) }, ?_, ?_, ?_⟩
    · simp only [SearchForm.set, hm, if_pos, h0, Option.getD_none, JVal.truthy,
        Bool.false_eq_true, if_false, alookup_aset_self, List.nil_append,
        aset_aset_collapse]
    · simp only [SearchForm.set, hm, if_pos, alookup_aset_self, Option.getD_some,
        JVal.truthy, List.isEmpty_cons, Bool.not_false, if_true,
        aset_aset_collapse, List.cons_append, List.nil_append]
    · exact alookup_aset_self _ _ _
  · intro hg
    refine ⟨{ f with data := aset f.data field v1 },
      { f with data := aset (aset f.data field v1) field v2 }, ?_, ?_, ?_⟩
    · simp only [SearchForm.set, hg, Bool.false_eq_true, if_false]
    · simp only [SearchForm.set, hg, Bool.false_eq_true, if_false]
    · exact alookup_aset_self _ _ _
  · intro fields dfs hq
    have hl := alookup_forceQ fields
    rw [hq] at hl
    simp only [Option.map_some'] at hl
    constructor
    · simpa [jset] using hl
    · simp only [fieldMultiple, hl, jset]
      have h1 : (JVal.obj (aset dfs "multiple" (.bool true))).truthy = true := by
        simp [JVal.truthy, List.isEmpty_iff, aset_ne_nil]
      have h2 : jget (JVal.obj (aset dfs "multiple" (.bool true))) "multiple" = .bool true := by
        simp [jget, alookup_aset_self]
      rw [h1, h2]
      rfl

/-- Witness for C5: on a fresh `everything` form, two `q` stores accumulate
and two `ref` stores overwrite. -/
theorem set_multiple_accumulates_single_overwrites_witness :
    (∃ f1 f2, sampleForm.set "q" (.str "A") = .ok f1 ∧ f1.set "q" (.str "B") = .ok f2
        ∧ alookup f2.data "q" = some (.arr [.str "A", .str "B"]))
    ∧ (∃ g1 g2, sampleForm.set "ref" (.str "r1") = .ok g1
        ∧ g1.set "ref" (.str "r2") = .ok g2
        ∧ alookup g2.data "ref" = some (.str "r2")) :=
  ⟨(set_multiple_accumulates_single_overwrites sampleForm "q" (.str "A") (.str "B")).1
      rfl rfl,
   (set_multiple_accumulates_single_overwrites sampleForm "ref" (.str "r1") (.str "r2")).2.1
      rfl⟩

/-- C6: `SearchForm.submit` fails with `MissingReference` exactly when the
accumulated data holds no `ref` (absent key, or Python `None`); after
storing any non-null ref value, submit does not raise it; the modelled
submission raises no other error; and the form's state — in particular its
data — is unchanged by a submit whether or not the precondition fails. -/
theorem submit_missing_reference_precondition (f : SearchForm) :
    ((f.submit).1 = .error .refMissing ↔ (alookup f.data "ref").getD .null = .null)
    ∧ (∀ e, (f.submit).1 = .error e → e = .refMissing)
    ∧ (f.submit).2 = f
    ∧ (∀ v : JVal, v ≠ .null → ∀ f1, f.ref v = .ok f1 →
        (f1.submit).1 ≠ .error .refMissing) := by
  refine ⟨?_, ?_, rfl, ?_⟩
  · unfold SearchForm.submit submit_assert_preconditions
    cases hv : (alookup f.data "ref").getD .null <;> simp
  · intro e he
    unfold SearchForm.submit submit_assert_preconditions at he
    revert he
    cases hv : (alookup f.data "ref").getD .null <;> simp
    intro h
    exact h.symm
  · intro v hv f1 hset
    have hne : (alookup f1.data "ref").getD .null ≠ .null := by
      unfold SearchForm.ref SearchForm.set at hset
      by_cases hm : fieldMultiple f.fields "ref" = true
      · rw [if_pos hm] at hset
        cases hl : alookup (if ((alookup f.data "ref").getD .null).truthy = true
            then f.data else aset f.data "ref" (.arr [])) "ref" with
        | none => simp [hl] at hset
        | some w =>
          cases w <;> simp [hl, Except.ok.injEq] at hset
          subst hset
          simp [alookup_aset_self]
      · rw [if_neg hm] at hset
        simp only [Except.ok.injEq] at hset
        subst hset
        simp only [alookup_aset_self, Option.getD_some]
        intro hcontra
        exact hv hcontra
    unfold SearchForm.submit submit_assert_preconditions
    revert hne
    cases hv2 : (alookup f1.data "ref").getD .null <;> simp

/-- Witness for C6: a fresh form submits to `MissingReference`, and the
form with a ref stored does not. -/
theorem submit_missing_reference_precondition_witness :
    (sampleForm.submit).1 = .error .refMissing
    ∧ (sampleFormWithRef.submit).1 ≠ .error .refMissing
    ∧ (sampleForm.submit).2 = sampleForm := by
  refine ⟨?_, ?_, ?_⟩
  · exact (submit_missing_reference_precondition sampleForm).1.mpr rfl
  · exact (submit_missing_reference_precondition sampleForm).2.2.2 (.str "master-tok")
      (by intro h; exact JVal.noConfusion h) sampleFormWithRef rfl
  · exact (submit_missing_reference_precondition sampleForm).2.2.1

/-- C7: `count` submits an independent copy of the form — action, method,
enctype, fields and data all equal to the original's — whose `pageSize` is
forced to `1`, and the original form is returned unchanged (its accumulated
data, in particular its `pageSize` entry, is untouched). -/
theorem count_submits_copy_with_pagesize_one (f : SearchForm)
    (hps : fieldMultiple f.fields "pageSize" = false)
    (href : (alookup f.data "ref").getD .null ≠ .null) :
    (f.copyForm.action = f.action ∧ f.copyForm.method = f.method
      ∧ f.copyForm.enctype = f.enctype ∧ f.copyForm.fields = f.fields
      ∧ f.copyForm.data = f.data)
    ∧ (∀ req f2, f.count = .ok (req, f2) → f2 = f)
    ∧ (∃ req, f.count = .ok (req, f)
        ∧ req.action = f.action
        ∧ req.data = aset f.data "pageSize" (.num 1)
        ∧ alookup req.data "pageSize" = some (.num 1)) := by
  have hcopy : f.copyForm = f := rfl
  have hcp : (f.copyForm).page_size 1
      = .ok { f with data := aset f.data "pageSize" (.num 1) } := by
    rw [hcopy]
    simp only [SearchForm.page_size, SearchForm.set, hps, Bool.false_eq_true, if_false]
  have hrefcp : (alookup (aset f.data "pageSize" (.num 1)) "ref").getD .null ≠ .null := by
    rw [alookup_aset_ne f.data "pageSize" "ref" _ (by decide)]
    exact href
  have hsub : ({ f with data := aset f.data "pageSize" (.num 1) } : SearchForm).submit.1
      = .ok { action := f.action, data := aset f.data "pageSize" (.num 1),
              access_token := f.access_token } := by
    unfold SearchForm.submit submit_assert_preconditions
    revert hrefcp
    cases hv : (alookup (aset f.data "pageSize" (.num 1)) "ref").getD .null <;> simp
  refine ⟨⟨rfl, rfl, rfl, rfl, rfl⟩, ?_, ?_⟩
  · intro req f2 hc
    unfold SearchForm.count at hc
    split at hc
    · exact absurd hc (by simp)
    · split at hc
      · exact absurd hc (by simp)
      · simp only [Except.ok.injEq, Prod.mk.injEq] at hc
        exact hc.2.symm
  · refine ⟨⟨f.action, aset f.data "pageSize" (.num 1), f.access_token⟩,
      ?_, rfl, rfl, alookup_aset_self _ _ _⟩
    unfold SearchForm.count
    rw [hcp]
    simp only [hsub]

/-- Witness for C7: counting on a concrete form with a ref set leaves the
original untouched and submits pageSize 1. -/
theorem count_submits_copy_with_pagesize_one_witness :
    ∃ req, sampleFormWithRef.count = .ok (req, sampleFormWithRef)
      ∧ req.action = sampleFormWithRef.action
      ∧ req.data = aset sampleFormWithRef.data "pageSize" (.num 1)
      ∧ alookup req.data "pageSize" = some (.num 1) :=
  (count_submits_copy_with_pagesize_one sampleFormWithRef rfl
    (by intro h; exact JVal.noConfusion h)).2.2

/-- C8: in `StructuredText.span_as_html`, spans ending at an offset are
closed before spans starting there are opened, spans starting at the same
offset open in descending length order (longest outermost), and spans whose
end offset equals the text length are closed after the text is exhausted;
in particular `"To be or not to be ?"` with spans `strong[3,5)`,
`strong[16,18)`, `em[3,5)` renders as the paragraph
`<p>To <em><strong>be</strong></em> or not to <strong>be</strong> ?</p>`. -/
theorem span_nesting_order_rendering :
    structured_text_as_html noSpanSer noBlockSer
        [LBlock.paragraph "To be or not to be ?"
          [⟨3, 5, .strong⟩, ⟨16, 18, .strong⟩, ⟨3, 5, .em⟩] none]
      = some "<p>To <em><strong>be</strong></em> or not to <strong>be</strong> ?</p>"
    ∧ span_as_html noSpanSer "abcd" [⟨0, 2, .em⟩, ⟨2, 4, .strong⟩]
      = some "<em>ab</em><strong>cd</strong>"
    ∧ span_as_html noSpanSer "ab" [⟨0, 2, .strong⟩] = some "<strong>ab</strong>"
    ∧ (∀ spans idx, List.Pairwise (fun a b => TSpan.length b ≤ TSpan.length a)
        (openOrder spans idx)) := by
  refine ⟨rfl, rfl, rfl, ?_⟩
  intro spans idx
  unfold openOrder
  rw [List.pairwise_reverse]
  exact pairwise_sortByLen _

/-- Counterexample for C9, one concrete divergence per field kind the
amendment qualifies: the text value `"a&b"` (legacy escapes, typed does
not), the number value `42` (legacy `%g` prints `42`, typed `str(float)`
prints `42.0`), a geopoint with latitude `0` (typed renders the empty
string on a falsy coordinate, legacy prints `0.000000`), an image with an
empty URL (typed renders the empty string, legacy still emits the `<img>`
tag), and an empty color value (typed renders the empty string, legacy an
empty span). -/
theorem legacy_typed_rendering_divergences :
    Fragment.Text.as_html "a&b" ≠ ResultData.fragment_to_html_str "text" "a&b"
    ∧ Fragment.Number.as_html 42 ≠ ResultData.fragment_to_html_number 42
    ∧ Fragment.GeoPoint.as_html 0 10500000 ≠ Structures.GeoPoint.as_html 0 10500000
    ∧ Fragment.Image.View.as_html ⟨"", 300, 199, none, none⟩
        ≠ Structures.Image.as_html ⟨"", 300, 199, none, none⟩
    ∧ Fragment.Color.as_html "" ≠ ResultData.fragment_to_html_str "color" "" := by
  refine ⟨by decide, by decide, by decide, by decide, by decide⟩

/-- C9 (amended): for equivalent field values the legacy and typed models
render identical HTML for the `color` kind on nonempty values, for the
`image` kind when the image URL is nonempty, and for the `geopoint` kind
when both coordinates are nonzero; for the `text` kind the legacy model
HTML-escapes the value while the typed model emits it verbatim, so the two
coincide exactly when escaping leaves the value unchanged; and the `number`
kind always differs on integer values in the plain-digit range of `%g`
(legacy `42` versus typed `42.0`, and the typed model renders `0` as the
empty string). -/
theorem legacy_typed_rendering_equivalence_amended :
    (∀ v : String, v ≠ "" →
        Fragment.Color.as_html v = ResultData.fragment_to_html_str "color" v)
    ∧ (∀ v : String, v ≠ "" →
        (Fragment.Text.as_html v = ResultData.fragment_to_html_str "text" v
          ↔ htmlEscape v = v))
    ∧ (∀ v : ImageViewF, v.url ≠ "" →
        Fragment.Image.View.as_html v = Structures.Image.as_html v)
    ∧ (∀ lat lon : Int, lat ≠ 0 → lon ≠ 0 →
        Fragment.GeoPoint.as_html lat lon = Structures.GeoPoint.as_html lat lon)
    ∧ (∀ n : Int, n.natAbs ≤ 999999 →
        Fragment.Number.as_html n ≠ ResultData.fragment_to_html_number n) := by
  refine ⟨?_, ?_, ?_, ?_, ?_⟩
  · intro v hv
    have hb : (v == "") = false := beq_eq_false_iff_ne.mpr hv
    show Fragment.Color.as_html v = ResultData.fragment_to_html_str "color" v
    unfold Fragment.Color.as_html ResultData.fragment_to_html_str
    rw [hb]
    rfl
  · intro v hv
    have hb : (v == "") = false := beq_eq_false_iff_ne.mpr hv
    have htyped : ResultData.fragment_to_html_str "text" v
        = "<span class=\"text\">" ++ v ++ "</span>" := by
      unfold ResultData.fragment_to_html_str
      rw [hb]
      rfl
    have hlegacy : Fragment.Text.as_html v
        = "<span class=\"text\">" ++ htmlEscape v ++ "</span>" := rfl
    rw [htyped, hlegacy]
    constructor
    · intro h
      have h2 := congrArg String.data h
      rw [String.data_append, String.data_append, String.data_append,
        String.data_append] at h2
      exact String.ext (List.append_cancel_left (List.append_cancel_right h2))
    · intro h
      rw [h]
  · intro v hv
    have hb : (v.url == "") = false := beq_eq_false_iff_ne.mpr hv
    unfold Fragment.Image.View.as_html Structures.Image.as_html
    rw [hb]
    rfl
  · intro lat lon hlat hlon
    have hb : (lat == 0 || lon == 0) = false := by
      simp [beq_iff_eq, hlat, hlon]
    unfold Fragment.GeoPoint.as_html Structures.GeoPoint.as_html
    rw [hb]
    rfl
  · intro n _
    by_cases h0 : n = 0
    · subst h0
      decide
    · have hb : (n == 0) = false := beq_eq_false_iff_ne.mpr h0
      unfold Fragment.Number.as_html ResultData.fragment_to_html_number pyFloatStr_int
      rw [hb]
      simp only [Bool.false_eq_true, if_false]
      intro heq
      have h2 := congrArg String.data heq
      rw [String.data_append, String.data_append, String.data_append,
        String.data_append] at h2
      have h3 := List.append_cancel_left (List.append_cancel_right h2)
      rw [String.data_append] at h3
      have h4 := congrArg List.length h3
      rw [List.length_append] at h4
      have h5 : (".0" : String).data.length = 2 := rfl
      rw [h5] at h4
      omega

/-- Witness for C9 (amended): concrete values for the color, image and
geopoint equalities, the text escaping equivalence, and the number
divergence. -/
theorem legacy_typed_rendering_equivalence_amended_witness :
    Fragment.Color.as_html "#ffeacd" = ResultData.fragment_to_html_str "color" "#ffeacd"
    ∧ (Fragment.Text.as_html "Vanilla" = ResultData.fragment_to_html_str "text" "Vanilla"
        ↔ htmlEscape "Vanilla" = "Vanilla")
    ∧ Fragment.Image.View.as_html ⟨"http://fpoimg.com/129x260", 260, 129, none, none⟩
        = Structures.Image.as_html ⟨"http://fpoimg.com/129x260", 260, 129, none, none⟩
    ∧ Fragment.GeoPoint.as_html 37777431 (-122415419)
        = Structures.GeoPoint.as_html 37777431 (-122415419)
    ∧ Fragment.Number.as_html 42 ≠ ResultData.fragment_to_html_number 42 :=
  ⟨legacy_typed_rendering_equivalence_amended.1 "#ffeacd" (by decide),
   legacy_typed_rendering_equivalence_amended.2.1 "Vanilla" (by decide),
   legacy_typed_rendering_equivalence_amended.2.2.1
     ⟨"http://fpoimg.com/129x260", 260, 129, none, none⟩ (by decide),
   legacy_typed_rendering_equivalence_amended.2.2.2.1 37777431 (-122415419)
     (by decide) (by decide),
   legacy_typed_rendering_equivalence_amended.2.2.2.2 42 (by decide)⟩

/-- C10: the legacy `Document`'s slug accessor is total: a document JSON
without a `slugs` key yields the default list `["-"]` and slug `"-"`; an
empty parsed slugs list yields slug `"-"`; otherwise the slug is the first
(most recent) entry, URL-decoded. -/
theorem document_slug_default_and_decode (data : JVal) (slugs : List String)
    (h : parseSlugs data = some slugs) :
    (jget data "slugs" = .null → slugs = ["-"] ∧ Document.slug slugs = "-")
    ∧ (jget data "slugs" = .arr [] → slugs = [] ∧ Document.slug slugs = "-")
    ∧ (∀ v rest, jget data "slugs" = .arr (JVal.str v :: rest) →
        Document.slug slugs = unquote v) := by
  refine ⟨?_, ?_, ?_⟩
  · intro hg
    unfold parseSlugs at h
    rw [hg] at h
    simp only [Option.some.injEq] at h
    subst h
    exact ⟨rfl, rfl⟩
  · intro hg
    unfold parseSlugs at h
    rw [hg] at h
    simp only [List.mapM_nil, pure, Option.some.injEq] at h
    subst h
    exact ⟨rfl, rfl⟩
  · intro v rest hg
    unfold parseSlugs at h
    rw [hg] at h
    have h2 : (JVal.str v :: rest).mapM (fun x => match x with
        | JVal.str s => some (unquote s)
        | _ => none) = some slugs := h
    rw [List.mapM_cons] at h2
    cases htl : rest.mapM (fun x => match x with
        | JVal.str s => some (unquote s)
        | _ => none) with
    | none => rw [htl] at h2; simp at h2
    | some tl =>
      rw [htl] at h2
      simp only [Option.bind_eq_bind, Option.some_bind, Option.pure_def,
        Option.some.injEq] at h2
      subst h2
      rfl

/-- Witness for C10: a concrete document JSON whose slugs parse, with the
most recent slug URL-decoded, and the no-slugs default. -/
theorem document_slug_default_and_decode_witness :
    Document.slug ["hello world", "old"] = unquote "hello%20world"
    ∧ unquote "hello%20world" = "hello world"
    ∧ Document.slug ["-"] = "-" := by
  refine ⟨?_, rfl, ?_⟩
  · exact (document_slug_default_and_decode
      (.obj [("slugs", .arr [.str "hello%20world", .str "old"])])
      ["hello world", "old"] rfl).2.2 "hello%20world" [.str "old"] rfl
  · exact ((document_slug_default_and_decode (.obj [("id", .str "X")]) ["-"] rfl).1 rfl).2
